import Mathlib

/-!
Verification of the content-embedding utility module of the
digital-twin-safe repository (file src/components/AppLayout/Sidebar/index.tsx).

The module consists of pure or DOM-mutating browser functions.  The shallow
embedding below renders bytes as lists of natural numbers below 256, strings
as Lean strings, the relevant DOM fragments as explicit values threaded
through the functions, and promise settlement as an explicit outcome type.
Platform primitives (the URL constructor, FileReader, the multibase codec
library) are modelled from the specification's description of their contract;
every function of the repository itself is translated from its source.
-/

/-- JS string prefix test on character lists: does the pattern lead the list? -/
def charsLeadWith : List Char → List Char → Bool
  | [], _ => true
  | _ :: _, [] => false
  | a :: ps, b :: ls => a == b && charsLeadWith ps ls

/-- JS substring containment on character lists (semantics of
String.prototype.includes): the pattern occurs somewhere in the list. -/
def charsContain : List Char → List Char → Bool
  | [], pat => pat.isEmpty
  | a :: rest, pat => charsLeadWith pat (a :: rest) || charsContain rest pat

/-- Embedding of the JS expression s.includes(pat). -/
def jsIncludes (s pat : String) : Bool :=
  charsContain s.data pat.data

/-- ASCII lower-casing of one character, as JS toLowerCase acts on ASCII. -/
def lowerChar (c : Char) : Char :=
  if 65 ≤ c.toNat ∧ c.toNat ≤ 90 then Char.ofNat (c.toNat + 32) else c

/-- Embedding of the JS expression s.toLowerCase() restricted to ASCII text
(host names compared by the code are ASCII). -/
def lowerStr (s : String) : String :=
  String.mk (s.data.map lowerChar)

/-- Modelled from the spec: the registry of named encoding schemes of the
external multibase codec dependency, restricted to the base64 family that the
repository uses and the spec names ("base64", "base64urlpad" and their
siblings). -/
inductive Encoding where
  | base64
  | base64pad
  | base64url
  | base64urlpad
deriving DecidableEq, Repr

/-- Whether the scheme uses the URL-safe alphabet (- and _ for 62 and 63). -/
def Encoding.urlAlphabet : Encoding → Bool
  | .base64url | .base64urlpad => true
  | _ => false

/-- Whether the scheme writes explicit = padding. -/
def Encoding.padded : Encoding → Bool
  | .base64pad | .base64urlpad => true
  | _ => false

/-- Modelled from the spec: the base64 alphabet of the codec dependency,
mapping a sextet value to its character (RFC 4648, standard or URL-safe). -/
def b64Char (url : Bool) (n : Nat) : Char :=
  if n < 26 then Char.ofNat (65 + n)
  else if n < 52 then Char.ofNat (71 + n)
  else if n < 62 then Char.ofNat (n - 4)
  else if n = 62 then (if url then '-' else '+')
  else if url then '_' else '/'

/-- Modelled from the spec: the inverse alphabet lookup of the codec
dependency; none on a character outside the alphabet. -/
def b64Val (url : Bool) (c : Char) : Option Nat :=
  if 65 ≤ c.toNat ∧ c.toNat ≤ 90 then some (c.toNat - 65)
  else if 97 ≤ c.toNat ∧ c.toNat ≤ 122 then some (c.toNat - 71)
  else if 48 ≤ c.toNat ∧ c.toNat ≤ 57 then some (c.toNat + 4)
  else if c = (if url then '-' else '+') then some 62
  else if c = (if url then '_' else '/') then some 63
  else none

/-- Bytes to base64 sextet values: groups of three bytes become four sextets,
a trailing group of two bytes becomes three sextets, one byte becomes two. -/
def b64EncodeSextets : List Nat → List Nat
  | [] => []
  | [a] => [a / 4, a % 4 * 16]
  | [a, b] => [a / 4, a % 4 * 16 + b / 16, b % 16 * 4]
  | a :: b :: c :: rest =>
      a / 4 :: (a % 4 * 16 + b / 16) :: (b % 16 * 4 + c / 64) :: c % 64 ::
        b64EncodeSextets rest

/-- Base64 sextet values back to bytes: four sextets give three bytes, three
give two, two give one; a lone sextet (invalid) contributes nothing. -/
def b64DecodeSextets : List Nat → List Nat
  | s₁ :: s₂ :: s₃ :: s₄ :: rest =>
      (s₁ * 4 + s₂ / 16) :: (s₂ % 16 * 16 + s₃ / 4) :: (s₃ % 4 * 64 + s₄) ::
        b64DecodeSextets rest
  | [s₁, s₂, s₃] => [s₁ * 4 + s₂ / 16, s₂ % 16 * 16 + s₃ / 4]
  | [s₁, s₂] => [s₁ * 4 + s₂ / 16]
  | _ => []

/-- Number of = padding characters for a given count of sextet characters. -/
def b64PadLen (sextetCount : Nat) : Nat :=
  (4 - sextetCount % 4) % 4

/-- Option-valued traversal of a character list, as the codec dependency's
decode loop: none as soon as one character fails to decode. -/
def mapMOption (f : Char → Option Nat) : List Char → Option (List Nat)
  | [] => some []
  | c :: cs =>
      match f c, mapMOption f cs with
      | some v, some vs => some (v :: vs)
      | _, _ => none

/-- Modelled from the spec: the codec dependency's base64 encoder for an
alphabet choice and a padding choice. -/
def b64Encode (url pad : Bool) (bytes : List Nat) : String :=
  let sextets := b64EncodeSextets bytes
  let chars := sextets.map (b64Char url)
  let padChars := if pad then List.replicate (b64PadLen sextets.length) '=' else []
  String.mk (chars ++ padChars)

/-- Modelled from the spec: the codec dependency's base64 decoder; none on a
character outside the alphabet or on an impossible length (the library raises
on malformed text). -/
def b64Decode (url pad : Bool) (s : String) : Option (List Nat) :=
  let body := if pad then s.data.takeWhile (fun c => !(c == '=')) else s.data
  match mapMOption (b64Val url) body with
  | none => none
  | some sextets =>
      if sextets.length % 4 = 1 then none else some (b64DecodeSextets sextets)

/-- Modelled from the spec: toString of the uint8arrays library (the import
renamed uint8arrayToStringFromLib in the source), on the base64 family. -/
def uint8arrayToStringFromLib (uint8array : List Nat) (encoding : Encoding) : String :=
  b64Encode encoding.urlAlphabet encoding.padded uint8array

/-- Modelled from the spec: fromString of the uint8arrays library (the import
renamed uint8arrayFromStringFromLib in the source), on the base64 family. -/
def uint8arrayFromStringFromLib (str : String) (encoding : Encoding) : Option (List Nat) :=
  b64Decode encoding.urlAlphabet encoding.padded str

/-- Source uint8arrayToString: a pass-through to the library encoder. -/
def uint8arrayToString (uint8array : List Nat) (encoding : Encoding) : String :=
  uint8arrayToStringFromLib uint8array encoding

/-- Source uint8arrayFromString: a pass-through to the library decoder. -/
def uint8arrayFromString (str : String) (encoding : Encoding) : Option (List Nat) :=
  uint8arrayFromStringFromLib str encoding

/-- A Blob value: its binary content and its mimetype. -/
structure JsBlob where
  content : List Nat
  type : String
deriving DecidableEq, Repr

/-- Source blobToBase64String: read the blob's bytes (await blob.arrayBuffer)
and encode them with the base64urlpad scheme; the resolved promise value. -/
def blobToBase64String (blob : JsBlob) : String :=
  uint8arrayToString blob.content Encoding.base64urlpad

/-- Source base64StringToBlob: decode with the base64urlpad scheme and wrap
the bytes in a new Blob constructed without options, whose type is "". -/
def base64StringToBlob (base64String : String) : Option JsBlob :=
  (uint8arrayFromString base64String Encoding.base64urlpad).map
    (fun bytes => { content := bytes, type := "" })

/-- A File value: its binary content and its mimetype. -/
structure JsFile where
  content : List Nat
  mimetype : String
deriving DecidableEq, Repr

/-- Modelled from the spec: the platform FileReader.readAsDataURL primitive.
When the read succeeds, reader.result is a data URL (mimetype and padded
base64 payload); when the underlying read fails, reader.result is null. -/
def readAsDataURLResult (file : JsFile) (readOk : Bool) : Option String :=
  if readOk then
    some ("data:" ++ (file.mimetype ++ (";base64," ++ b64Encode false true file.content)))
  else none

/-- Settlement of a single-resolution promise: resolved with a JS value that
may be null, or rejected with a reason. -/
inductive PromiseOutcome where
  | resolved (value : Option String)
  | rejected (reason : String)
deriving DecidableEq, Repr

/-- Whether the promise settled by rejection. -/
def PromiseOutcome.isRejected : PromiseOutcome → Bool
  | .rejected _ => true
  | _ => false

/-- Source fileToDataUrl: the only handler installed is onloadend, which fires
after success and after failure alike and calls resolve(reader.result); the
reject callback of the promise executor is never invoked. -/
def fileToDataUrl (file : JsFile) (readOk : Bool) : PromiseOutcome :=
  PromiseOutcome.resolved (readAsDataURLResult file readOk)

/-- A transient link element as built by downloadFile: its href and download
attributes and its display-none style. -/
structure AnchorElem where
  href : String
  download : String
  displayNone : Bool
deriving DecidableEq, Repr

/-- Source downloadFile: build the link element with a base64 data URL href,
append it to the body, click it (no DOM change), then remove it.  The result
records the element, the body while the element was attached, and the body
after the call returns. -/
def downloadFile (filename : String) (data : List Nat) (mimetype : String)
    (body : List AnchorElem) : AnchorElem × List AnchorElem × List AnchorElem :=
  let element : AnchorElem :=
    { href := "data:" ++ mimetype ++ ";base64," ++ uint8arrayToString data Encoding.base64
      download := filename
      displayNone := true }
  let bodyDuring := body ++ [element]
  let bodyAfter := bodyDuring.dropLast
  (element, bodyDuring, bodyAfter)

/-- An iframe element as built by injectViewerIFrame: the properties the
source assigns. -/
structure IFrameElem where
  src : String
  title : String
  sandbox : String
  loading : String
  allow : String
  className : String
deriving DecidableEq, Repr

/-- The host component of a parsed URL. -/
structure URLParts where
  host : String
deriving DecidableEq, Repr

/-- Split a character list at the first occurrence of the :// separator,
giving the scheme part and the remainder. -/
def splitSchemeRest : List Char → Option (List Char × List Char)
  | [] => none
  | ':' :: '/' :: '/' :: rest => some ([], rest)
  | c :: rest =>
      match splitSchemeRest rest with
      | some (sch, after) => some (c :: sch, after)
      | none => none

/-- Modelled from the spec: the platform URL constructor, restricted to
hierarchical scheme://host URLs: the host is the authority up to the first
path, query or fragment delimiter; none (the constructor throws a TypeError)
when the separator, the scheme or the host is missing. -/
def parseURL (s : String) : Option URLParts :=
  match splitSchemeRest s.data with
  | none => none
  | some (scheme, rest) =>
      if scheme.isEmpty then none
      else
        let hostChars := rest.takeWhile (fun c => !(c == '/' || c == '?' || c == '#'))
        if hostChars.isEmpty then none else some { host := String.mk hostChars }

/-- document.getElementById over the modelled DOM (an association of element
ids to their lists of appended iframe children): the first element with the
given id, or none. -/
def getElementById : List (String × List IFrameElem) → String → Option (List IFrameElem)
  | [], _ => none
  | (i, cs) :: rest, targetId =>
      if i = targetId then some cs else getElementById rest targetId

/-- appendChild on the first element with the given id: the new child goes at
the end of that element's child list; other elements are untouched. -/
def appendToId : List (String × List IFrameElem) → String → IFrameElem →
    List (String × List IFrameElem)
  | [], _, _ => []
  | (i, cs) :: rest, targetId, fr =>
      if i = targetId then (i, cs ++ [fr]) :: rest
      else (i, cs) :: appendToId rest targetId fr

/-- The page state the embedder reads and mutates: window.location.host and
the modelled DOM. -/
structure Page where
  locationHost : String
  dom : List (String × List IFrameElem)
deriving DecidableEq, Repr

/-- The last appended child of the element with the given id, when both
exist. -/
def lastViewerChild (page : Page) (targetId : String) : Option IFrameElem :=
  (getElementById page.dom targetId).bind List.getLast?

/-- The fixed sandbox permission list the source assigns to every iframe. -/
def IFRAME_SANDBOX : String :=
  "allow-forms allow-scripts allow-popups  allow-modals allow-popups-to-escape-sandbox allow-same-origin"

/-- The fixed feature allow-list the source assigns to every iframe. -/
def IFRAME_ALLOW : String :=
  "accelerometer; ambient-light-sensor; autoplay; battery; camera; display-capture; encrypted-media; fullscreen; geolocation; gyroscope; layout-animations; legacy-image-formats; magnetometer; microphone; midi; payment; picture-in-picture; publickey-credentials-get; sync-xhr; usb; vr; screen-wake-lock; web-share; xr-spatial-tracking"

/-- The message of the data-URL guard throw in the source. -/
def DATA_URL_ERROR : String :=
  "You can not inject an iFrame with a data url.  Try a regular https URL."

/-- The message of the same-host guard throw in the source. -/
def SAME_ORIGIN_ERROR : String :=
  "You cannot host a LIT on the same domain as the parent webpage.  This is because iFrames with the same origin have access to localstorage and cookies in the parent webpage which is unsafe"

/-- A thrown JS exception: an Error raised by the source's own guard checks
(the spec's UnsafeUrlError is errorThrown with the guard's message), or a
TypeError surfaced by a platform primitive (the spec's ElementNotFoundError
and the URL constructor failure). -/
inductive JsError where
  | errorThrown (msg : String)
  | typeErrorThrown (msg : String)
deriving DecidableEq, Repr

/-- The iframe element the source builds before appending: src, title, the
two fixed allow-lists, lazy loading, and the optional class name (assigned
only when the className argument is truthy, otherwise the default ""). -/
def createViewerIFrame (fileUrl title : String) (className : Option String) : IFrameElem :=
  { src := fileUrl
    title := title
    sandbox := IFRAME_SANDBOX
    loading := "lazy"
    allow := IFRAME_ALLOW
    className :=
      match className with
      | some c => if c = "" then "" else c
      | none => "" }

/-- Source injectViewerIFrame: refuse any fileUrl containing "data:"; parse
the URL and refuse a host equal (lower-cased) to the page's host; otherwise
build the iframe and append it to the element with the destination id.  The
result pairs the page after the call with the thrown exception, if any; every
failure leaves the page untouched. -/
def injectViewerIFrame (destinationId title fileUrl : String)
    (className : Option String) (page : Page) : Page × Option JsError :=
  if jsIncludes fileUrl "data:" then
    (page, some (JsError.errorThrown DATA_URL_ERROR))
  else
    match parseURL fileUrl with
    | none => (page, some (JsError.typeErrorThrown "Invalid URL"))
    | some url =>
      if lowerStr url.host = lowerStr page.locationHost then
        (page, some (JsError.errorThrown SAME_ORIGIN_ERROR))
      else
        match getElementById page.dom destinationId with
        | none => (page, some (JsError.typeErrorThrown "null destination element"))
        | some _ =>
            ({ locationHost := page.locationHost
               dom := appendToId page.dom destinationId
                        (createViewerIFrame fileUrl title className) }, none)

/-- A pattern leads any list that extends it. -/
theorem charsLeadWith_refl_append : ∀ (p t : List Char), charsLeadWith p (p ++ t) = true
  | [], _ => rfl
  | a :: ps, t => by simp [charsLeadWith, charsLeadWith_refl_append ps t]

/-- A leading pattern is contained. -/
theorem charsContain_of_lead : ∀ (l pat : List Char),
    charsLeadWith pat l = true → charsContain l pat = true
  | [], pat, h => by
      cases pat with
      | nil => rfl
      | cons a ps => simp [charsLeadWith] at h
  | a :: rest, pat, h => by simp [charsContain, h]

/-- A string beginning with the pattern includes it. -/
theorem jsIncludes_of_leading (p t : String) : jsIncludes (p ++ t) p = true := by
  unfold jsIncludes
  rw [String.data_append]
  exact charsContain_of_lead _ _ (charsLeadWith_refl_append p.data t.data)

/-- Every sextet produced from valid bytes is below 64. -/
theorem b64EncodeSextets_all_lt : ∀ l : List Nat, (∀ x ∈ l, x < 256) →
    ∀ s ∈ b64EncodeSextets l, s < 64
  | [], _ => by simp [b64EncodeSextets]
  | [a], h => by
      have ha := h a (by simp)
      simp only [b64EncodeSextets, List.mem_cons, List.not_mem_nil, or_false]
      intro s hs
      rcases hs with h1 | h1 <;> omega
  | [a, b], h => by
      have ha := h a (by simp)
      have hb := h b (by simp)
      simp only [b64EncodeSextets, List.mem_cons, List.not_mem_nil, or_false]
      intro s hs
      rcases hs with h1 | h1 | h1 <;> omega
  | a :: b :: c :: rest, h => by
      have ha := h a (by simp)
      have hb := h b (by simp)
      have hc := h c (by simp)
      have ih := b64EncodeSextets_all_lt rest (fun x hx => h x (by simp [hx]))
      intro s hs
      simp only [b64EncodeSextets, List.mem_cons] at hs
      rcases hs with h1 | h1 | h1 | h1 | h1
      · omega
      · omega
      · omega
      · omega
      · exact ih s h1

/-- The number of sextets produced is never 1 modulo 4. -/
theorem b64EncodeSextets_mod4 : ∀ l : List Nat, (b64EncodeSextets l).length % 4 ≠ 1
  | [] => by simp [b64EncodeSextets]
  | [a] => by simp [b64EncodeSextets]
  | [a, b] => by simp [b64EncodeSextets]
  | a :: b :: c :: rest => by
      have ih := b64EncodeSextets_mod4 rest
      simp only [b64EncodeSextets, List.length_cons]
      omega

/-- Decoding the sextets of valid bytes restores the bytes. -/
theorem b64Sextets_roundtrip : ∀ l : List Nat, (∀ x ∈ l, x < 256) →
    b64DecodeSextets (b64EncodeSextets l) = l
  | [], _ => rfl
  | [a], h => by
      have ha := h a (by simp)
      simp only [b64EncodeSextets, b64DecodeSextets, List.cons.injEq, and_true]
      omega
  | [a, b], h => by
      have ha := h a (by simp)
      have hb := h b (by simp)
      simp only [b64EncodeSextets, b64DecodeSextets, List.cons.injEq, and_true]
      constructor <;> omega
  | a :: b :: c :: rest, h => by
      have ha := h a (by simp)
      have hb := h b (by simp)
      have hc := h c (by simp)
      have ih := b64Sextets_roundtrip rest (fun x hx => h x (by simp [hx]))
      simp only [b64EncodeSextets, b64DecodeSextets, ih, List.cons.injEq, and_true]
      refine ⟨?_, ?_, ?_⟩ <;> omega

/-- The alphabet lookup inverts the alphabet on sextet values. -/
theorem b64Val_b64Char (url : Bool) : ∀ n : Nat, n < 64 →
    b64Val url (b64Char url n) = some n := by
  cases url <;> decide

/-- No alphabet character is the padding character. -/
theorem b64Char_not_pad (url : Bool) : ∀ n : Nat, n < 64 →
    (!(b64Char url n == '=')) = true := by
  cases url <;> decide

/-- The option traversal inverts a map whose values all decode. -/
theorem mapMOption_map (f : Char → Option Nat) (g : Nat → Char) :
    ∀ l : List Nat, (∀ s ∈ l, f (g s) = some s) → mapMOption f (l.map g) = some l
  | [], _ => rfl
  | s :: rest, h => by
      have hs := h s (by simp)
      have ih := mapMOption_map f g rest (fun x hx => h x (by simp [hx]))
      simp [mapMOption, hs, ih]

/-- takeWhile over a list of keepers followed by a list of droppers yields
exactly the keepers. -/
theorem takeWhile_all_append (p : Char → Bool) : ∀ (xs ys : List Char),
    (∀ x ∈ xs, p x = true) → (∀ y ∈ ys, p y = false) → (xs ++ ys).takeWhile p = xs
  | [], ys, _, hy => by
      cases ys with
      | nil => rfl
      | cons y ys => simp [List.takeWhile_cons, hy y (by simp)]
  | x :: xs, ys, hx, hy => by
      have ih := takeWhile_all_append p xs ys (fun a ha => hx a (by simp [ha])) hy
      simp [List.takeWhile_cons, hx x (by simp), ih]

/-- The modelled codec round-trips every valid byte list, for each alphabet
and padding choice. -/
theorem b64_roundtrip (url pad : Bool) (l : List Nat) (h : ∀ x ∈ l, x < 256) :
    b64Decode url pad (b64Encode url pad l) = some l := by
  have hlt := b64EncodeSextets_all_lt l h
  have hmod := b64EncodeSextets_mod4 l
  have hmap : mapMOption (b64Val url) ((b64EncodeSextets l).map (b64Char url))
      = some (b64EncodeSextets l) :=
    mapMOption_map _ _ _ (fun s hs => b64Val_b64Char url s (hlt s hs))
  cases pad with
  | false =>
      simp only [b64Encode, b64Decode, Bool.false_eq_true, if_false, List.append_nil]
      rw [hmap]
      show (if (b64EncodeSextets l).length % 4 = 1 then none
        else some (b64DecodeSextets (b64EncodeSextets l))) = some l
      rw [if_neg hmod, b64Sextets_roundtrip l h]
  | true =>
      simp only [b64Encode, b64Decode, if_true]
      have hbody : ((b64EncodeSextets l).map (b64Char url) ++
          List.replicate (b64PadLen ((b64EncodeSextets l).length)) '=').takeWhile
            (fun c => !(c == '=')) = (b64EncodeSextets l).map (b64Char url) := by
        apply takeWhile_all_append
        · intro x hxm
          rcases List.mem_map.mp hxm with ⟨s, hs, rfl⟩
          exact b64Char_not_pad url s (hlt s hs)
        · intro y hym
          rcases List.eq_of_mem_replicate hym with rfl
          rfl
      rw [hbody, hmap]
      show (if (b64EncodeSextets l).length % 4 = 1 then none
        else some (b64DecodeSextets (b64EncodeSextets l))) = some l
      rw [if_neg hmod, b64Sextets_roundtrip l h]

/-- The repository's codec wrappers round-trip every valid byte list on every
modelled encoding scheme. -/
theorem uint8array_roundtrip (b : List Nat) (e : Encoding)
    (h : ∀ x ∈ b, x < 256) :
    uint8arrayFromString (uint8arrayToString b e) e = some b := by
  unfold uint8arrayToString uint8arrayFromString uint8arrayToStringFromLib
    uint8arrayFromStringFromLib
  exact b64_roundtrip e.urlAlphabet e.padded b h

/-- Appending a child to an element extends exactly that element's child
list. -/
theorem getElementById_appendToId :
    ∀ (dom : List (String × List IFrameElem)) (targetId : String)
      (fr : IFrameElem) (cs : List IFrameElem),
      getElementById dom targetId = some cs →
      getElementById (appendToId dom targetId fr) targetId = some (cs ++ [fr])
  | [], _, _, _, h => by simp [getElementById] at h
  | (i, l) :: rest, targetId, fr, cs, h => by
      by_cases hi : i = targetId
      · subst hi
        simp [getElementById] at h
        subst h
        simp [appendToId, getElementById]
      · simp [getElementById, hi] at h
        have ih := getElementById_appendToId rest targetId fr cs h
        simp [appendToId, getElementById, hi, ih]

/-- A call of the embedder that raises no exception went through the success
branch: the destination existed, and the result is the page with the built
iframe appended there. -/
theorem inject_none_shape (destinationId title fileUrl : String)
    (className : Option String) (page : Page)
    (h : (injectViewerIFrame destinationId title fileUrl className page).2 = none) :
    ∃ cs, getElementById page.dom destinationId = some cs ∧
      injectViewerIFrame destinationId title fileUrl className page =
        ({ locationHost := page.locationHost
           dom := appendToId page.dom destinationId
                    (createViewerIFrame fileUrl title className) }, none) := by
  by_cases h₁ : jsIncludes fileUrl "data:"
  · simp [injectViewerIFrame, h₁] at h
  · cases hp : parseURL fileUrl with
    | none => simp [injectViewerIFrame, h₁, hp] at h
    | some u =>
      by_cases h₂ : lowerStr u.host = lowerStr page.locationHost
      · simp [injectViewerIFrame, h₁, hp, h₂] at h
      · cases hd : getElementById page.dom destinationId with
        | none => simp [injectViewerIFrame, h₁, hp, h₂, hd] at h
        | some cs =>
            exact ⟨cs, rfl, by simp [injectViewerIFrame, h₁, hp, h₂, hd]⟩

/-- C1: a call of injectViewerIFrame whose fileUrl is an inline data URI (a
string of the form "data:...") fails with the data-URL guard error (the
spec's UnsafeUrlError) whatever the destination id, title and class name, and
the page — in particular its DOM — is returned unchanged: nothing is created
or appended. -/
theorem c1_inject_data_uri_fails (destinationId title fileUrl : String)
    (className : Option String) (page : Page)
    (h : ∃ rest, fileUrl = "data:" ++ rest) :
    injectViewerIFrame destinationId title fileUrl className page =
      (page, some (JsError.errorThrown DATA_URL_ERROR)) := by
  obtain ⟨rest, rfl⟩ := h
  unfold injectViewerIFrame
  rw [if_pos (jsIncludes_of_leading "data:" rest)]

/-- Witness for C1 at a concrete inline data URI. -/
theorem c1_inject_data_uri_fails_witness :
    injectViewerIFrame "viewer" "doc" "data:text/html,hello" none
        (Page.mk "example.com" [("viewer", [])]) =
      (Page.mk "example.com" [("viewer", [])],
        some (JsError.errorThrown DATA_URL_ERROR)) :=
  c1_inject_data_uri_fails "viewer" "doc" "data:text/html,hello" none
    (Page.mk "example.com" [("viewer", [])]) ⟨"text/html,hello", by decide⟩

/-- C9: the data-URL guard of injectViewerIFrame is a plain substring test:
every fileUrl containing "data:" anywhere — also a cross-origin https URL
with "data:" only in its path or query — fails with the data-URL guard error
and leaves the page unchanged. -/
theorem c9_inject_data_substring_fails (destinationId title fileUrl : String)
    (className : Option String) (page : Page)
    (h : jsIncludes fileUrl "data:" = true) :
    injectViewerIFrame destinationId title fileUrl className page =
      (page, some (JsError.errorThrown DATA_URL_ERROR)) := by
  unfold injectViewerIFrame
  rw [if_pos h]

/-- Witness for C9 at a cross-origin https URL that merely mentions "data:"
in its query. -/
theorem c9_inject_data_substring_fails_witness :
    injectViewerIFrame "viewer" "doc" "https://cdn.example.org/file?x=data:1"
        (some "cls") (Page.mk "example.com" [("viewer", [])]) =
      (Page.mk "example.com" [("viewer", [])],
        some (JsError.errorThrown DATA_URL_ERROR)) :=
  c9_inject_data_substring_fails "viewer" "doc"
    "https://cdn.example.org/file?x=data:1" (some "cls")
    (Page.mk "example.com" [("viewer", [])]) (by decide)

/-- C2: a call of injectViewerIFrame whose fileUrl parses to a host equal to
the page's host under case-insensitive comparison fails with a guard error
(the spec's UnsafeUrlError: the same-origin message, or the data-URL message
when the text also contains "data:"), and the page — in particular its DOM —
is returned unchanged. -/
theorem c2_inject_same_host_fails (destinationId title fileUrl : String)
    (className : Option String) (page : Page) (u : URLParts)
    (hparse : parseURL fileUrl = some u)
    (hhost : lowerStr u.host = lowerStr page.locationHost) :
    (injectViewerIFrame destinationId title fileUrl className page).1 = page ∧
      ((injectViewerIFrame destinationId title fileUrl className page).2 =
          some (JsError.errorThrown SAME_ORIGIN_ERROR) ∨
        (injectViewerIFrame destinationId title fileUrl className page).2 =
          some (JsError.errorThrown DATA_URL_ERROR)) := by
  by_cases h₁ : jsIncludes fileUrl "data:"
  · simp [injectViewerIFrame, h₁]
  · simp [injectViewerIFrame, h₁, hparse, hhost]

/-- Witness for C2: the page is hosted at example.com and the URL host is
EXAMPLE.com. -/
theorem c2_inject_same_host_fails_witness :
    (injectViewerIFrame "viewer" "doc" "https://EXAMPLE.com/x" none
        (Page.mk "example.com" [("viewer", [])])).1 =
      Page.mk "example.com" [("viewer", [])] ∧
      ((injectViewerIFrame "viewer" "doc" "https://EXAMPLE.com/x" none
          (Page.mk "example.com" [("viewer", [])])).2 =
        some (JsError.errorThrown SAME_ORIGIN_ERROR) ∨
      (injectViewerIFrame "viewer" "doc" "https://EXAMPLE.com/x" none
          (Page.mk "example.com" [("viewer", [])])).2 =
        some (JsError.errorThrown DATA_URL_ERROR)) :=
  c2_inject_same_host_fails "viewer" "doc" "https://EXAMPLE.com/x" none
    (Page.mk "example.com" [("viewer", [])]) (URLParts.mk "EXAMPLE.com")
    (by decide) (by decide)

/-- C4: a call of injectViewerIFrame with a fileUrl that makes neither guard
fire (no "data:" substring and a parsed host differing case-insensitively
from the page's host) and a destination id resolving to an existing element
raises no exception and appends exactly one new iframe child to that element,
whose src is fileUrl, whose title is title, and whose className is the given
class name whenever one is provided. -/
theorem c4_inject_success (destinationId title fileUrl : String)
    (className : Option String) (page : Page) (u : URLParts)
    (children : List IFrameElem)
    (hdata : jsIncludes fileUrl "data:" = false)
    (hparse : parseURL fileUrl = some u)
    (hhost : lowerStr u.host ≠ lowerStr page.locationHost)
    (hdest : getElementById page.dom destinationId = some children) :
    ∃ fr : IFrameElem,
      injectViewerIFrame destinationId title fileUrl className page =
        ({ locationHost := page.locationHost
           dom := appendToId page.dom destinationId fr }, none) ∧
      getElementById
          (injectViewerIFrame destinationId title fileUrl className page).1.dom
          destinationId = some (children ++ [fr]) ∧
      fr.src = fileUrl ∧ fr.title = title ∧
      (∀ c, className = some c → fr.className = c) := by
  have heq : injectViewerIFrame destinationId title fileUrl className page =
      ({ locationHost := page.locationHost
         dom := appendToId page.dom destinationId
                  (createViewerIFrame fileUrl title className) }, none) := by
    simp [injectViewerIFrame, hdata, hparse, hhost, hdest]
  refine ⟨createViewerIFrame fileUrl title className, heq, ?_, rfl, rfl, ?_⟩
  · rw [heq]
    exact getElementById_appendToId page.dom destinationId _ children hdest
  · intro c hc
    subst hc
    by_cases hce : c = "" <;> simp [createViewerIFrame, hce]

/-- Witness for C4 at a concrete cross-origin https URL and an existing
destination element. -/
theorem c4_inject_success_witness :
    ∃ fr : IFrameElem,
      injectViewerIFrame "viewer" "doc" "https://cdn.example.org/page.html"
          (some "cls") (Page.mk "example.com" [("viewer", [])]) =
        ({ locationHost := "example.com"
           dom := appendToId [("viewer", [])] "viewer" fr }, none) ∧
      getElementById
          (injectViewerIFrame "viewer" "doc" "https://cdn.example.org/page.html"
            (some "cls") (Page.mk "example.com" [("viewer", [])])).1.dom
          "viewer" = some ([] ++ [fr]) ∧
      fr.src = "https://cdn.example.org/page.html" ∧ fr.title = "doc" ∧
      (∀ c, (some "cls" : Option String) = some c → fr.className = c) :=
  c4_inject_success "viewer" "doc" "https://cdn.example.org/page.html"
    (some "cls") (Page.mk "example.com" [("viewer", [])])
    (URLParts.mk "cdn.example.org") [] (by decide) (by decide) (by decide)
    (by decide)

/-- C8: the sandbox permission list and the feature allow-list of the iframe
appended by any two successful calls of injectViewerIFrame coincide — they
are the fixed constants IFRAME_SANDBOX and IFRAME_ALLOW, independent of every
parameter of either call. -/
theorem c8_inject_allowlists_fixed (p₁ p₂ : Page)
    (d₁ t₁ u₁ d₂ t₂ u₂ : String) (c₁ c₂ : Option String)
    (h₁ : (injectViewerIFrame d₁ t₁ u₁ c₁ p₁).2 = none)
    (h₂ : (injectViewerIFrame d₂ t₂ u₂ c₂ p₂).2 = none) :
    ∃ f₁ f₂ : IFrameElem,
      lastViewerChild (injectViewerIFrame d₁ t₁ u₁ c₁ p₁).1 d₁ = some f₁ ∧
      lastViewerChild (injectViewerIFrame d₂ t₂ u₂ c₂ p₂).1 d₂ = some f₂ ∧
      f₁.sandbox = f₂.sandbox ∧ f₁.allow = f₂.allow ∧
      f₁.sandbox = IFRAME_SANDBOX ∧ f₁.allow = IFRAME_ALLOW := by
  obtain ⟨cs₁, hg₁, he₁⟩ := inject_none_shape d₁ t₁ u₁ c₁ p₁ h₁
  obtain ⟨cs₂, hg₂, he₂⟩ := inject_none_shape d₂ t₂ u₂ c₂ p₂ h₂
  refine ⟨createViewerIFrame u₁ t₁ c₁, createViewerIFrame u₂ t₂ c₂, ?_, ?_,
    rfl, rfl, rfl, rfl⟩
  · rw [he₁]
    unfold lastViewerChild
    rw [getElementById_appendToId p₁.dom d₁ _ cs₁ hg₁]
    simp [List.getLast?_concat]
  · rw [he₂]
    unfold lastViewerChild
    rw [getElementById_appendToId p₂.dom d₂ _ cs₂ hg₂]
    simp [List.getLast?_concat]

/-- Witness for C8: two concrete successful calls with different URLs,
titles, destinations and class names. -/
theorem c8_inject_allowlists_fixed_witness :
    ∃ f₁ f₂ : IFrameElem,
      lastViewerChild
          (injectViewerIFrame "viewer" "doc" "https://cdn.example.org/a.html"
            (some "cls") (Page.mk "example.com" [("viewer", [])])).1
          "viewer" = some f₁ ∧
      lastViewerChild
          (injectViewerIFrame "pane" "other" "https://media.example.net/b.html"
            none (Page.mk "host.example" [("pane", [])])).1
          "pane" = some f₂ ∧
      f₁.sandbox = f₂.sandbox ∧ f₁.allow = f₂.allow ∧
      f₁.sandbox = IFRAME_SANDBOX ∧ f₁.allow = IFRAME_ALLOW :=
  c8_inject_allowlists_fixed (Page.mk "example.com" [("viewer", [])])
    (Page.mk "host.example" [("pane", [])]) "viewer" "doc"
    "https://cdn.example.org/a.html" "pane" "other"
    "https://media.example.net/b.html" (some "cls") none (by decide) (by decide)

/-- C3 counterexample: at a concrete file whose underlying platform read
fails, fileToDataUrl settles by resolution with the null reader result — the
promise does resolve and is not rejected, contradicting the claim that a
failed read rejects the promise and never resolves. -/
theorem c3_fileToDataUrl_counterexample :
    fileToDataUrl (JsFile.mk [104, 105] "text/plain") false =
        PromiseOutcome.resolved none ∧
      (fileToDataUrl (JsFile.mk [104, 105] "text/plain") false).isRejected =
        false :=
  ⟨rfl, rfl⟩

/-- C3 amended: fileToDataUrl never rejects; on a readable file it resolves
to a text beginning with "data:", and on a failed read it resolves with null
(the only handler, onloadend, fires in both cases and resolve receives the
reader result, null after a failure; the reject callback is never called). -/
theorem c3_fileToDataUrl_amended (file : JsFile) (readOk : Bool) :
    (fileToDataUrl file readOk).isRejected = false ∧
      (readOk = true → ∃ rest, fileToDataUrl file readOk =
        PromiseOutcome.resolved (some ("data:" ++ rest))) ∧
      (readOk = false → fileToDataUrl file readOk =
        PromiseOutcome.resolved none) := by
  refine ⟨by cases readOk <;> rfl, ?_, ?_⟩
  · intro h
    subst h
    exact ⟨file.mimetype ++ (";base64," ++ b64Encode false true file.content), rfl⟩
  · intro h
    subst h
    rfl

/-- Witness for C3 amended at a concrete readable file. -/
theorem c3_fileToDataUrl_amended_witness :
    ∃ rest, fileToDataUrl (JsFile.mk [104, 105] "text/plain") true =
      PromiseOutcome.resolved (some ("data:" ++ rest)) :=
  (c3_fileToDataUrl_amended (JsFile.mk [104, 105] "text/plain") true).2.1 rfl

/-- C5: downloadFile at filename "a.txt", the bytes of "hi" and mimetype
"text/plain" builds a transient link whose href is the data URL
"data:text/plain;base64," followed by "aGk" — a correct (unpadded) base64
encoding of "hi", as decoding it with the same scheme restores the bytes —
and whose download attribute is "a.txt"; while the call runs the element is
attached to the body, and by the time the call returns the body is restored
to its original state. -/
theorem c5_downloadFile_spec (body : List AnchorElem) :
    (downloadFile "a.txt" [104, 105] "text/plain" body).1.href =
        "data:text/plain;base64," ++ "aGk" ∧
      uint8arrayFromString "aGk" Encoding.base64 = some [104, 105] ∧
      (downloadFile "a.txt" [104, 105] "text/plain" body).1.download = "a.txt" ∧
      (downloadFile "a.txt" [104, 105] "text/plain" body).2.1 =
        body ++ [(downloadFile "a.txt" [104, 105] "text/plain" body).1] ∧
      (downloadFile "a.txt" [104, 105] "text/plain" body).2.2 = body := by
  refine ⟨rfl, by decide, rfl, rfl, ?_⟩
  simp [downloadFile]

/-- C6: decoding after encoding is the identity on byte sequences, for every
modelled encoding scheme: the repository's uint8arrayFromString applied to
uint8arrayToString of any valid byte list returns exactly that list. -/
theorem c6_uint8array_roundtrip (b : List Nat) (e : Encoding)
    (h : ∀ x ∈ b, x < 256) :
    uint8arrayFromString (uint8arrayToString b e) e = some b :=
  uint8array_roundtrip b e h

/-- Witness for C6 at a concrete byte list and the base64urlpad scheme. -/
theorem c6_uint8array_roundtrip_witness :
    uint8arrayFromString
        (uint8arrayToString [0, 255, 7, 33] Encoding.base64urlpad)
        Encoding.base64urlpad = some [0, 255, 7, 33] :=
  c6_uint8array_roundtrip [0, 255, 7, 33] Encoding.base64urlpad (by decide)

/-- C7: for every blob — the empty one included — decoding the resolved
result of blobToBase64String with base64StringToBlob succeeds and yields a
blob whose content equals the original content. -/
theorem c7_blob_roundtrip (blob : JsBlob) (h : ∀ x ∈ blob.content, x < 256) :
    ∃ b : JsBlob, base64StringToBlob (blobToBase64String blob) = some b ∧
      b.content = blob.content := by
  refine ⟨JsBlob.mk blob.content "", ?_, rfl⟩
  unfold base64StringToBlob blobToBase64String
  rw [uint8array_roundtrip blob.content Encoding.base64urlpad h]
  rfl

/-- Witness for C7 at a blob with empty content. -/
theorem c7_blob_roundtrip_witness :
    ∃ b : JsBlob,
      base64StringToBlob (blobToBase64String (JsBlob.mk [] "application/pdf")) =
        some b ∧ b.content = (JsBlob.mk [] "application/pdf").content :=
  c7_blob_roundtrip (JsBlob.mk [] "application/pdf") (by decide)

/-- C10: the blob round-trip preserves content but yields a blob constructed
without options, whose type is the empty default whatever the original blob's
type was. -/
theorem c10_blob_roundtrip_default_type (blob : JsBlob)
    (h : ∀ x ∈ blob.content, x < 256) :
    ∃ b : JsBlob, base64StringToBlob (blobToBase64String blob) = some b ∧
      b.type = "" ∧ b.content = blob.content := by
  refine ⟨JsBlob.mk blob.content "", ?_, rfl, rfl⟩
  unfold base64StringToBlob blobToBase64String
  rw [uint8array_roundtrip blob.content Encoding.base64urlpad h]
  rfl

/-- Witness for C10 at a blob with a non-empty mimetype. -/
theorem c10_blob_roundtrip_default_type_witness :
    ∃ b : JsBlob,
      base64StringToBlob (blobToBase64String (JsBlob.mk [1, 2] "text/plain")) =
        some b ∧ b.type = "" ∧
        b.content = (JsBlob.mk [1, 2] "text/plain").content :=
  c10_blob_roundtrip_default_type (JsBlob.mk [1, 2] "text/plain") (by decide)
